import Mathlib

/-!
Verification development for an M-Pesa STK-push forwarder.

The repository consists of an Express entry point and one route handler
(`lipaController` in `controllers/lipa.Controller.js`).  The handler module
builds a single `payload` object at module load from module-scope bindings
(`BUSINESS_SHORT_CODE`, `password`, `timestamp`, `amount`, `phone` — none of
which are declared in the file; `timestamp` is imported from the empty path
`""`), then exports an async handler that checks the two request-body fields
for truthiness, answers `{succcess: false, msg: ...}` when either is falsy,
and otherwise fires `axios.post(mpesa_safaricom_url, payload)` without
awaiting it, without headers, and without ever responding to the caller.

We embed the module shallowly: the undeclared module-scope identifiers and
the environment variables become an explicit `ModuleEnv`, JavaScript values
appearing in the request body become `JSValue` with JS truthiness, and the
handler becomes a pure function from the module environment, the request and
the (hypothetical) outcome of the outbound call to a record of everything
observable: the JSON response sent (if any), the list of outbound POSTs
issued, and whether a rejection of the un-awaited promise escapes unhandled.
-/

/-- A JavaScript value as it can appear in `req.body` fields. -/
inductive JSValue where
  | undef : JSValue
  | null : JSValue
  | str : String → JSValue
  | num : Int → JSValue
  | boolean : Bool → JSValue
  deriving DecidableEq, Repr

/-- JavaScript truthiness, as used by `if (!phoneNumber || !amount)`. -/
def JSValue.truthy : JSValue → Bool
  | JSValue.undef => false
  | JSValue.null => false
  | JSValue.str s => !s.isEmpty
  | JSValue.num n => n != 0
  | JSValue.boolean b => b

/-- A field that is absent from the body (`undefined`), `null`, or the
empty string — the "missing or empty" cases of the spec. -/
def JSValue.missingOrEmpty : JSValue → Bool
  | JSValue.undef => true
  | JSValue.null => true
  | JSValue.str s => s.isEmpty
  | _ => false

/-- The module-scope bindings the controller file refers to: the two
`process.env` reads and the five undeclared identifiers used to build
`payload` (modelled as ambient bindings fixed at module load). -/
structure ModuleEnv where
  MPESA_SANDBOX_URL : String
  MPESA_BUSINESS_SHORT_CODE : String
  BUSINESS_SHORT_CODE : String
  password : String
  timestamp : String
  amount : Int
  phone : String
  deriving DecidableEq, Repr

/-- The provider request body, mirroring the object literal `payload`. -/
structure StkPayload where
  BusinessShortCode : String
  Password : String
  Timestamp : String
  TransactionType : String
  Amount : Int
  PartyA : String
  PartyB : String
  PhoneNumber : String
  CallBackURL : String
  AccountReference : String
  TransactionDesc : String
  deriving DecidableEq, Repr

/-- The module-level `const payload = {...}`, evaluated once at load time
from module-scope bindings; note every field is either one of those
bindings or a string literal — nothing comes from an incoming request. -/
def payload (env : ModuleEnv) : StkPayload :=
  { BusinessShortCode := env.BUSINESS_SHORT_CODE
    Password := env.password
    Timestamp := env.timestamp
    TransactionType := "CustomerPayBillOnline"
    Amount := env.amount
    PartyA := env.phone
    PartyB := env.MPESA_BUSINESS_SHORT_CODE
    PhoneNumber := env.phone
    CallBackURL := "https://buysasaOnline.com/"
    AccountReference := "BuySasa online shop"
    TransactionDesc := "Payment" }

/-- An incoming request body: the two fields the handler destructures. -/
structure HttpRequest where
  phoneNumber : JSValue
  amount : JSValue
  deriving DecidableEq, Repr

/-- An outbound HTTP POST as issued by `axios.post(url, body)`: the call
site passes no config object, so no extra headers are attached. -/
structure OutboundPost where
  url : String
  body : StkPayload
  headers : List (String × String)
  deriving DecidableEq, Repr

/-- The provider's reply to a successful STK-push POST. -/
structure ProviderResponse where
  MerchantRequestID : String
  CheckoutRequestID : String
  ResponseCode : String
  ResponseDescription : String
  deriving DecidableEq, Repr

/-- Outcome of the outbound payment call: the promise either resolves with
a provider response or rejects with a transport error. -/
inductive Outcome where
  | resolved : ProviderResponse → Outcome
  | rejected : String → Outcome
  deriving DecidableEq, Repr

/-- Everything observable about one invocation of the handler: the JSON
body passed to `res.json` (if any), the outbound POSTs issued, and whether
the outcome of an un-awaited outbound call escaped as an unhandled promise
rejection. -/
structure ControllerResult where
  response : Option (List (String × JSValue))
  outbound : List OutboundPost
  unhandledRejection : Bool
  deriving DecidableEq, Repr

/-- The JSON object sent on failed validation; the literal key in the
source is spelled `succcess` (three c's). -/
def validationFailureJson : List (String × JSValue) :=
  [("succcess", JSValue.boolean false),
   ("msg", JSValue.str "Please provide all the fields")]

/-- Shallow embedding of `lipaController`.  `outcome` is how the provider
answers the POST if one is issued; because the call is not awaited and has
no rejection handler, the handler's observable behaviour is independent of
it except that a rejection becomes an unhandled promise rejection. -/
def lipaController (env : ModuleEnv) (req : HttpRequest) (outcome : Outcome) :
    ControllerResult :=
  if !req.phoneNumber.truthy || !req.amount.truthy then
    { response := some validationFailureJson
      outbound := []
      unhandledRejection := false }
  else
    { response := none
      outbound := [{ url := env.MPESA_SANDBOX_URL, body := payload env, headers := [] }]
      unhandledRejection :=
        match outcome with
        | Outcome.rejected _ => true
        | Outcome.resolved _ => false }

/-!
The controller imports `timestamp` from the empty module path and refers to
an undeclared `password`: the credential-building module is referenced but
absent from the sources.  Per the specification it is the Credential
Builder, modelled below from the spec's words.
-/

/-- The decimal digit character for a digit value; values ≥ 10 cannot occur
for zero-padded components but default to a digit as well. -/
def digitChar : Nat → Char
  | 0 => '0'
  | 1 => '1'
  | 2 => '2'
  | 3 => '3'
  | 4 => '4'
  | 5 => '5'
  | 6 => '6'
  | 7 => '7'
  | 8 => '8'
  | 9 => '9'
  | _ => '0'

/-- Zero-padded 2-digit decimal rendering of a component `n < 100`. -/
def pad2 (n : Nat) : List Char :=
  [digitChar (n / 10 % 10), digitChar (n % 10)]

/-- Zero-padded 4-digit decimal rendering of a component `n < 10000`. -/
def pad4 (n : Nat) : List Char :=
  [digitChar (n / 1000 % 10), digitChar (n / 100 % 10),
   digitChar (n / 10 % 10), digitChar (n % 10)]

/-- Modelled from the spec: an injected calendar clock reading in the
provider's timezone (the Credential Builder's `now` argument). -/
structure ClockReading where
  year : Nat
  month : Nat
  day : Nat
  hour : Nat
  minute : Nat
  second : Nat
  deriving DecidableEq, Repr

/-- A calendar reading whose components fit their zero-padded widths. -/
def ClockReading.valid (t : ClockReading) : Bool :=
  t.year ≤ 9999 && 1 ≤ t.month && t.month ≤ 12 && 1 ≤ t.day && t.day ≤ 31 &&
    t.hour ≤ 23 && t.minute ≤ 59 && t.second ≤ 59

/-- Modelled from the spec: the 14-digit `YYYYMMDDHHmmss` timestamp with
zero-padded components, no separators, 24-hour clock. -/
def formatTimestamp (t : ClockReading) : String :=
  String.mk (pad4 t.year ++ pad2 t.month ++ pad2 t.day ++
    pad2 t.hour ++ pad2 t.minute ++ pad2 t.second)

/-- The standard base64 alphabet. -/
def b64Alphabet : List Char :=
  "ABCDEFGHIJKLMNOPQRSTUVWXYZabcdefghijklmnopqrstuvwxyz0123456789+/".data

/-- The base64 character for a 6-bit value. -/
def b64Char (n : Nat) : Char :=
  b64Alphabet.getD n '='

/-- The 6-bit value of a base64 character. -/
def b64Val (c : Char) : Nat :=
  b64Alphabet.indexOf c

/-- Standard base64 of a byte sequence, processing three bytes into four
characters per group, with trailing groups padded by `=`. -/
def base64EncodeList : List Nat → List Char
  | [] => []
  | [a] => [b64Char (a / 4), b64Char (a % 4 * 16), '=', '=']
  | [a, b] => [b64Char (a / 4), b64Char (a % 4 * 16 + b / 16), b64Char (b % 16 * 4), '=']
  | a :: b :: c :: rest =>
      b64Char (a / 4) :: b64Char (a % 4 * 16 + b / 16) ::
        b64Char (b % 16 * 4 + c / 64) :: b64Char (c % 64) :: base64EncodeList rest

/-- Recover bytes from a sequence of 6-bit values (padding removed). -/
def decodeVals : List Nat → List Nat
  | w :: x :: y :: z :: rest =>
      (w * 4 + x / 16) :: (x % 16 * 16 + y / 4) :: (y % 4 * 64 + z) :: decodeVals rest
  | [w, x, y] => [w * 4 + x / 16, x % 16 * 16 + y / 4]
  | [w, x] => [w * 4 + x / 16]
  | _ => []

/-- Base64 decoding: drop padding, map characters to 6-bit values and
reassemble bytes. -/
def base64DecodeList (cs : List Char) : List Nat :=
  decodeVals ((cs.filter (fun c => c != '=')).map b64Val)

/-- The code points of a string, which for the ASCII material of this
domain coincide with its bytes. -/
def strBytes (s : String) : List Nat :=
  s.data.map Char.toNat

/-- Modelled from the spec: the Credentials record produced by the
Credential Builder. -/
structure Credentials where
  shortCode : String
  passkey : String
  timestamp : String
  derivedPassword : String
  deriving DecidableEq, Repr

/-- Modelled from the spec: `build(shortCode, passkey, now)` — the
timestamp is formatted from the injected clock reading and the derived
password is the base64 encoding of `shortCode || passkey || timestamp`. -/
def build (shortCode passkey : String) (now : ClockReading) : Credentials :=
  let ts := formatTimestamp now
  { shortCode := shortCode
    passkey := passkey
    timestamp := ts
    derivedPassword := String.mk (base64EncodeList (strBytes (shortCode ++ passkey ++ ts))) }

/-- Every 6-bit value maps into the alphabet (never the padding character)
and maps back to itself. -/
theorem b64Char_spec : ∀ n < 64, (b64Char n != '=') = true ∧ b64Val (b64Char n) = n := by
  decide

/-- The digit characters are decimal digits. -/
theorem digitChar_isDigit (n : Nat) : (digitChar n).isDigit = true := by
  unfold digitChar
  split <;> decide

/-- The digit characters are single bytes. -/
theorem digitChar_toNat_lt (n : Nat) : (digitChar n).toNat < 256 := by
  unfold digitChar
  split <;> decide

/-- Base64 decoding inverts base64 encoding on byte sequences. -/
theorem base64_roundtrip : ∀ l : List Nat, (∀ b ∈ l, b < 256) →
    base64DecodeList (base64EncodeList l) = l
  | [], _ => rfl
  | [a], h => by
      have ha : a < 256 := h a (by simp)
      have h1 : a / 4 < 64 := by omega
      have h2 : a % 4 * 16 < 64 := by omega
      obtain ⟨e1, v1⟩ := b64Char_spec _ h1
      obtain ⟨e2, v2⟩ := b64Char_spec _ h2
      simp [base64EncodeList, base64DecodeList, List.filter_cons, e1, e2, v1, v2, decodeVals]
      omega
  | [a, b], h => by
      have ha : a < 256 := h a (by simp)
      have hb : b < 256 := h b (by simp)
      have h1 : a / 4 < 64 := by omega
      have h2 : a % 4 * 16 + b / 16 < 64 := by omega
      have h3 : b % 16 * 4 < 64 := by omega
      obtain ⟨e1, v1⟩ := b64Char_spec _ h1
      obtain ⟨e2, v2⟩ := b64Char_spec _ h2
      obtain ⟨e3, v3⟩ := b64Char_spec _ h3
      simp [base64EncodeList, base64DecodeList, List.filter_cons, e1, e2, e3, v1, v2, v3,
        decodeVals]
      constructor <;> omega
  | a :: b :: c :: rest, h => by
      have ha : a < 256 := h a (by simp)
      have hb : b < 256 := h b (by simp)
      have hc : c < 256 := h c (by simp)
      have ih := base64_roundtrip rest (fun x hx => h x (by simp [hx]))
      have h1 : a / 4 < 64 := by omega
      have h2 : a % 4 * 16 + b / 16 < 64 := by omega
      have h3 : b % 16 * 4 + c / 64 < 64 := by omega
      have h4 : c % 64 < 64 := by omega
      obtain ⟨e1, v1⟩ := b64Char_spec _ h1
      obtain ⟨e2, v2⟩ := b64Char_spec _ h2
      obtain ⟨e3, v3⟩ := b64Char_spec _ h3
      obtain ⟨e4, v4⟩ := b64Char_spec _ h4
      simp only [base64EncodeList, base64DecodeList, List.filter_cons, e1, e2, e3, e4,
        if_true, List.map_cons, v1, v2, v3, v4, decodeVals] at ih ⊢
      rw [ih]
      simp only [List.cons.injEq]
      exact ⟨by omega, by omega, by omega, trivial⟩

/-- The formatted timestamp has exactly 14 characters. -/
theorem formatTimestamp_length (t : ClockReading) : (formatTimestamp t).length = 14 := by
  simp [formatTimestamp, pad4, pad2, String.length_mk]

/-- Every character of the formatted timestamp is a decimal digit. -/
theorem formatTimestamp_digits (t : ClockReading) :
    ∀ c ∈ (formatTimestamp t).data, c.isDigit = true := by
  intro c hc
  simp only [formatTimestamp, pad4, pad2, List.append_assoc, List.cons_append,
    List.nil_append, List.mem_cons, List.not_mem_nil, or_false] at hc
  rcases hc with rfl | rfl | rfl | rfl | rfl | rfl | rfl | rfl | rfl | rfl | rfl | rfl | rfl | rfl
    <;> exact digitChar_isDigit _

/-- Every character of the formatted timestamp is a single byte. -/
theorem formatTimestamp_bytes (t : ClockReading) :
    ∀ c ∈ (formatTimestamp t).data, c.toNat < 256 := by
  intro c hc
  simp only [formatTimestamp, pad4, pad2, List.append_assoc, List.cons_append,
    List.nil_append, List.mem_cons, List.not_mem_nil, or_false] at hc
  rcases hc with rfl | rfl | rfl | rfl | rfl | rfl | rfl | rfl | rfl | rfl | rfl | rfl | rfl | rfl
    <;> exact digitChar_toNat_lt _

/-- Code points distribute over string concatenation. -/
theorem strBytes_append (s t : String) : strBytes (s ++ t) = strBytes s ++ strBytes t := by
  simp [strBytes, String.data_append]

/-- C6: for all valid inputs (non-empty shortCode and passkey and a clock
reading), the credential builder produces a timestamp of exactly 14 digits
in YYYYMMDDHHmmss form and a derived password whose base64 decoding is the
byte-wise concatenation shortCode + passkey + timestamp, no delimiter. -/
theorem build_meets_credential_contract (shortCode passkey : String) (now : ClockReading)
    (hnow : now.valid = true) (hsc : shortCode ≠ "") (hpk : passkey ≠ "")
    (hascii : ∀ c ∈ (shortCode ++ passkey).data, c.toNat < 256) :
    (build shortCode passkey now).timestamp.length = 14 ∧
    (∀ c ∈ (build shortCode passkey now).timestamp.data, c.isDigit = true) ∧
    base64DecodeList (build shortCode passkey now).derivedPassword.data =
      strBytes shortCode ++ strBytes passkey ++ strBytes (build shortCode passkey now).timestamp := by
  refine ⟨formatTimestamp_length now, formatTimestamp_digits now, ?_⟩
  have hb : ∀ x ∈ strBytes (shortCode ++ passkey ++ formatTimestamp now), x < 256 := by
    intro x hx
    rw [strBytes_append, strBytes_append] at hx
    rcases List.mem_append.mp hx with hx | hx
    · rcases List.mem_append.mp hx with hx | hx
      · simp only [strBytes, List.mem_map] at hx
        obtain ⟨c, hc, rfl⟩ := hx
        exact hascii c (by rw [String.data_append]; exact List.mem_append_left _ hc)
      · simp only [strBytes, List.mem_map] at hx
        obtain ⟨c, hc, rfl⟩ := hx
        exact hascii c (by rw [String.data_append]; exact List.mem_append_right _ hc)
    · simp only [strBytes, List.mem_map] at hx
      obtain ⟨c, hc, rfl⟩ := hx
      exact formatTimestamp_bytes now c hc
  show base64DecodeList
      (base64EncodeList (strBytes (shortCode ++ passkey ++ formatTimestamp now))) = _
  rw [base64_roundtrip _ hb, strBytes_append, strBytes_append]
  rfl

/-- Witness for C6 at the sandbox short code and a sample passkey and
clock reading. -/
theorem build_meets_credential_contract_witness :
    ((ClockReading.mk 2025 11 24 15 30 45).valid = true ∧ ("174379" : String) ≠ "" ∧
      ("bfbPasskey" : String) ≠ "" ∧
      ∀ c ∈ (("174379" : String) ++ "bfbPasskey").data, c.toNat < 256) ∧
    ((build "174379" "bfbPasskey" (ClockReading.mk 2025 11 24 15 30 45)).timestamp.length = 14 ∧
      (∀ c ∈ (build "174379" "bfbPasskey" (ClockReading.mk 2025 11 24 15 30 45)).timestamp.data,
        c.isDigit = true) ∧
      base64DecodeList
          (build "174379" "bfbPasskey" (ClockReading.mk 2025 11 24 15 30 45)).derivedPassword.data =
        strBytes "174379" ++ strBytes "bfbPasskey" ++
          strBytes (build "174379" "bfbPasskey" (ClockReading.mk 2025 11 24 15 30 45)).timestamp) :=
  ⟨⟨by decide, by decide, by decide, by decide⟩,
    build_meets_credential_contract "174379" "bfbPasskey" (ClockReading.mk 2025 11 24 15 30 45)
      (by decide) (by decide) (by decide) (by decide)⟩

/-!
Concrete fixtures: a module environment as loaded in the sandbox, two
distinct well-formed requests, and sample provider outcomes.
-/

/-- A concrete module environment: sandbox URL and short code, plus the
module-scope credential bindings as they stand when the module loads. -/
def envA : ModuleEnv :=
  { MPESA_SANDBOX_URL := "https://sandbox.safaricom.co.ke/mpesa/stkpush/v1/processrequest"
    MPESA_BUSINESS_SHORT_CODE := "174379"
    BUSINESS_SHORT_CODE := "174379"
    password := "cachedModulePassword"
    timestamp := "20240101120000"
    amount := 999
    phone := "254711111111" }

/-- A well-formed payment request from a caller. -/
def reqOk : HttpRequest :=
  { phoneNumber := JSValue.str "254708374149", amount := JSValue.num 1 }

/-- A second, different well-formed request (a later submission). -/
def reqB : HttpRequest :=
  { phoneNumber := JSValue.str "254700000000", amount := JSValue.num 250 }

/-- A provider acceptance. -/
def respOk : ProviderResponse :=
  { MerchantRequestID := "29115-34620561-1"
    CheckoutRequestID := "ws_CO_1"
    ResponseCode := "0"
    ResponseDescription := "Success. Request accepted for processing" }

/-- A provider business-level rejection (still a response with a code). -/
def respRej : ProviderResponse :=
  { MerchantRequestID := "29115-34620561-2"
    CheckoutRequestID := "ws_CO_2"
    ResponseCode := "1032"
    ResponseDescription := "Request cancelled by user" }

/-- C1: the outbound call is fired without being awaited, so whatever the
provider answers — acceptance, rejection, or a transport error — the
handler's response to the caller is the same `none`: the outcome is
silently dropped, contradicting the claim that it is always propagated. -/
theorem lipaController_drops_outbound_outcome :
    (lipaController envA reqOk (Outcome.resolved respOk)).response = none ∧
    (lipaController envA reqOk (Outcome.resolved respRej)).response = none ∧
    (lipaController envA reqOk (Outcome.rejected "socket hang up")).response = none ∧
    lipaController envA reqOk (Outcome.resolved respOk) =
      { response := none
        outbound := [{ url := envA.MPESA_SANDBOX_URL, body := payload envA, headers := [] }]
        unhandledRejection := false } := by
  decide

/-- C2: when phoneNumber or amount is missing (absent or null) or the
empty string, the handler answers the failure JSON immediately and issues
no outbound call. -/
theorem lipaController_rejects_missing_fields (env : ModuleEnv) (req : HttpRequest)
    (o : Outcome)
    (h : req.phoneNumber.missingOrEmpty = true ∨ req.amount.missingOrEmpty = true) :
    (lipaController env req o).response = some validationFailureJson ∧
    (lipaController env req o).outbound = [] := by
  have hcond : (!req.phoneNumber.truthy || !req.amount.truthy) = true := by
    rcases h with h | h
    · cases hv : req.phoneNumber <;> rw [hv] at h <;>
        simp_all [JSValue.missingOrEmpty, JSValue.truthy]
    · cases hv : req.amount <;> rw [hv] at h <;>
        simp_all [JSValue.missingOrEmpty, JSValue.truthy]
  simp [lipaController, hcond]

/-- Witness for C2: the spec's example, empty phone number and amount 10. -/
theorem lipaController_rejects_missing_fields_witness :
    ((JSValue.str "").missingOrEmpty = true ∨ (JSValue.num 10).missingOrEmpty = true) ∧
    ((lipaController envA { phoneNumber := JSValue.str "", amount := JSValue.num 10 }
        (Outcome.resolved respOk)).response = some validationFailureJson ∧
      (lipaController envA { phoneNumber := JSValue.str "", amount := JSValue.num 10 }
        (Outcome.resolved respOk)).outbound = []) :=
  ⟨Or.inl (by decide),
    lipaController_rejects_missing_fields envA
      { phoneNumber := JSValue.str "", amount := JSValue.num 10 }
      (Outcome.resolved respOk) (Or.inl (by decide))⟩

/-- C3 counterexample: amount -5 with a well-formed phone number passes the
truthiness check — the handler sends no validation failure and an outbound
payment call is made, contrary to the claim. -/
theorem lipaController_negative_amount_not_rejected :
    (lipaController envA { phoneNumber := JSValue.str "254708374149", amount := JSValue.num (-5) }
        (Outcome.resolved respOk)).outbound ≠ [] ∧
    (lipaController envA { phoneNumber := JSValue.str "254708374149", amount := JSValue.num (-5) }
        (Outcome.resolved respOk)).response = none := by
  decide

/-- C3 amended: the handler's amount check is JavaScript truthiness.  For
every request whose amount is falsy — the number 0, a missing (undefined
or null) field, or the empty string — it answers the validation failure
JSON and makes no outbound call; but a non-zero negative numeric amount
such as -5 with a well-formed (non-empty) phone number passes the check:
no failure response is sent and the outbound payment POST is issued. -/
theorem lipaController_amount_check_is_truthiness (env : ModuleEnv) (req : HttpRequest)
    (ph : String) (a : Int) (o : Outcome)
    (hfalsy : req.amount.truthy = false) (hph : ph.isEmpty = false) (ha : a < 0) :
    ((lipaController env req o).response = some validationFailureJson ∧
      (lipaController env req o).outbound = []) ∧
    ((lipaController env { phoneNumber := JSValue.str ph, amount := JSValue.num a } o).response
        = none ∧
      (lipaController env { phoneNumber := JSValue.str ph, amount := JSValue.num a } o).outbound
        = [{ url := env.MPESA_SANDBOX_URL, body := payload env, headers := [] }]) := by
  have ha0 : a ≠ 0 := by omega
  constructor
  · constructor <;> simp [lipaController, hfalsy]
  · constructor <;> simp [lipaController, JSValue.truthy, hph, ha0]

/-- Witness for the amended C3: amount 0 is rejected with the failure JSON
and no outbound call, while amount -5 passes and the POST is issued. -/
theorem lipaController_amount_check_is_truthiness_witness :
    ((JSValue.num 0).truthy = false ∧ "254700000000".isEmpty = false ∧ (-5 : Int) < 0) ∧
    (((lipaController envA { phoneNumber := JSValue.str "254708374149", amount := JSValue.num 0 }
          (Outcome.resolved respOk)).response = some validationFailureJson ∧
        (lipaController envA { phoneNumber := JSValue.str "254708374149", amount := JSValue.num 0 }
          (Outcome.resolved respOk)).outbound = []) ∧
      ((lipaController envA
            { phoneNumber := JSValue.str "254700000000", amount := JSValue.num (-5) }
            (Outcome.resolved respOk)).response = none ∧
        (lipaController envA
            { phoneNumber := JSValue.str "254700000000", amount := JSValue.num (-5) }
            (Outcome.resolved respOk)).outbound =
          [{ url := envA.MPESA_SANDBOX_URL, body := payload envA, headers := [] }])) :=
  ⟨⟨by decide, by decide, by decide⟩,
    lipaController_amount_check_is_truthiness envA
      { phoneNumber := JSValue.str "254708374149", amount := JSValue.num 0 }
      "254700000000" (-5) (Outcome.resolved respOk) (by decide) (by decide) (by decide)⟩

/-- C4: the single outbound POST issued for a well-formed request carries
no headers at all — in particular no Authorization Bearer header — and no
token-endpoint call exists anywhere in the handler (its outbound list holds
exactly the one payment POST). -/
theorem lipaController_post_carries_no_auth :
    (lipaController envA reqOk (Outcome.resolved respOk)).outbound =
      [{ url := envA.MPESA_SANDBOX_URL, body := payload envA, headers := [] }] ∧
    (lipaController envA reqOk (Outcome.resolved respOk)).outbound.map OutboundPost.headers =
      [[]] := by
  decide

/-- C5: two sequential submissions with different requests both post the
module-level payload, whose Timestamp and Password are the bindings fixed
at module load — nothing is recomputed at submission time. -/
theorem lipaController_posts_cached_module_credentials :
    ((lipaController envA reqOk (Outcome.resolved respOk)).outbound.map
        (fun p => (p.body.Timestamp, p.body.Password))) =
      [("20240101120000", "cachedModulePassword")] ∧
    ((lipaController envA reqB (Outcome.resolved respRej)).outbound.map
        (fun p => (p.body.Timestamp, p.body.Password))) =
      [("20240101120000", "cachedModulePassword")] := by
  decide

/-- C7: the posted body is the module-level payload: the caller sent amount
1 and phone 254708374149, yet the body carries the module bindings (amount
999, phone 254711111111) and hardcoded callback URL, account reference and
transaction description. -/
theorem lipaController_payload_ignores_request :
    (lipaController envA reqOk (Outcome.resolved respOk)).outbound.map OutboundPost.body =
      [payload envA] ∧
    reqOk.amount = JSValue.num 1 ∧ (payload envA).Amount = 999 ∧
    reqOk.phoneNumber = JSValue.str "254708374149" ∧
    (payload envA).PartyA = "254711111111" ∧ (payload envA).PhoneNumber = "254711111111" ∧
    (payload envA).CallBackURL = "https://buysasaOnline.com/" ∧
    (payload envA).AccountReference = "BuySasa online shop" ∧
    (payload envA).TransactionDesc = "Payment" := by
  decide

/-- C8: a transport failure of the un-awaited outbound call is not
recovered at the handler: it escapes as an unhandled promise rejection and
the caller receives nothing. -/
theorem lipaController_rejection_escapes_unhandled :
    (lipaController envA reqOk (Outcome.rejected "ETIMEDOUT")).unhandledRejection = true ∧
    (lipaController envA reqOk (Outcome.rejected "ETIMEDOUT")).response = none := by
  decide

/-- C9: the only JSON the handler ever sends has keys `succcess` (three
c's) and `msg` — no field named `success` — and for a well-formed request
no response is sent at all. -/
theorem lipaController_response_lacks_success_field :
    (lipaController envA { phoneNumber := JSValue.str "", amount := JSValue.num 10 }
        (Outcome.resolved respOk)).response = some validationFailureJson ∧
    validationFailureJson.map Prod.fst = ["succcess", "msg"] ∧
    (validationFailureJson.map Prod.fst).contains "success" = false ∧
    (lipaController envA reqOk (Outcome.resolved respOk)).response = none := by
  decide

/-- C10: any two requests that pass the truthiness check cause the same
outbound POST list, namely the single module-level payload — the outbound
body does not depend on any per-request data. -/
theorem lipaController_outbound_independent_of_request (env : ModuleEnv)
    (req1 req2 : HttpRequest) (o1 o2 : Outcome)
    (h1 : req1.phoneNumber.truthy = true ∧ req1.amount.truthy = true)
    (h2 : req2.phoneNumber.truthy = true ∧ req2.amount.truthy = true) :
    (lipaController env req1 o1).outbound = (lipaController env req2 o2).outbound ∧
    (lipaController env req1 o1).outbound.map OutboundPost.body = [payload env] := by
  obtain ⟨h1p, h1a⟩ := h1
  obtain ⟨h2p, h2a⟩ := h2
  simp [lipaController, h1p, h1a, h2p, h2a]

/-- Witness for C10 at two different requests and different provider
outcomes. -/
theorem lipaController_outbound_independent_of_request_witness :
    ((reqOk.phoneNumber.truthy = true ∧ reqOk.amount.truthy = true) ∧
      (reqB.phoneNumber.truthy = true ∧ reqB.amount.truthy = true)) ∧
    ((lipaController envA reqOk (Outcome.resolved respOk)).outbound =
        (lipaController envA reqB (Outcome.rejected "ECONNRESET")).outbound ∧
      (lipaController envA reqOk (Outcome.resolved respOk)).outbound.map OutboundPost.body =
        [payload envA]) :=
  ⟨⟨⟨by decide, by decide⟩, ⟨by decide, by decide⟩⟩,
    lipaController_outbound_independent_of_request envA reqOk reqB (Outcome.resolved respOk)
      (Outcome.rejected "ECONNRESET") ⟨by decide, by decide⟩ ⟨by decide, by decide⟩⟩
